import Mathlib

/-!
Verification development for the lobby client logic
(`src/app/public/src/game/lobby-logic.ts`).

The file shallowly embeds the two exported coroutines, `joinLobbyRoom`
(the SessionManager `connect()`) and `joinExistingPreparationRoom`
(the RoomTransitionCoordinator), as pure functions from an environment
describing the behaviour of the external collaborators (auth provider,
realtime client, credential store) to an ordered trace of observable
effects plus an outcome.  The lobby `onLeave` disconnect handler and the
tournament-tree projector callbacks are embedded as separate trace
functions.  Every theorem below is stated against these embeddings.
-/

/-- Close codes the server may use when closing a connection.  The four
identity-invalidating codes are named; all other codes are collapsed into
`other`. -/
inductive CloseCode where
  | USER_INACTIVE
  | USER_BANNED
  | USER_DELETED
  | USER_NOT_AUTHENTICATED
  | other : Nat → CloseCode
deriving DecidableEq

/-- A live room connection handle: `room.name`, `room.roomId`,
`room.reconnectionToken` and `room.connection.isOpen` as used by the
source. -/
structure RoomHandle where
  name : String
  roomId : String
  reconnectionToken : String
  isOpen : Bool
deriving DecidableEq

/-- A thrown/rejected error value: an optional close code (`error.code`)
and a message (`error.message`). -/
structure ErrObj where
  code : Option CloseCode
  message : String
deriving DecidableEq

/-- The two credential-store keys used by the source
(`LocalStoreKeys.RECONNECTION_LOBBY`, `LocalStoreKeys.RECONNECTION_PREPARATION`). -/
inductive LocalStoreKeys where
  | RECONNECTION_LOBBY
  | RECONNECTION_PREPARATION
deriving DecidableEq

/-- A persisted reconnection credential `{ reconnectionToken, roomId }`. -/
structure Credential where
  reconnectionToken : String
  roomId : String
deriving DecidableEq

/-- Observable effects, in execution order, of the embedded coroutines. -/
inductive Act where
  | authenticate
  | getIdToken
  | reconnect : String → Act
  | clientJoin : String → String → Act
  | joinById : String → String → Act
  | validateKind : String → Act
  | leaveRoom : String → Act
  | storeGet : LocalStoreKeys → Act
  | storeSet : LocalStoreKeys → String → String → Nat → Act
  | storeDelete : LocalStoreKeys → Act
  | dispatchSetConnectionStatus
  | dispatchResetPreparation
  | dispatchResetLobby
  | dispatchJoinLobby : String → Act
  | dispatchSetErrorAlertMessage : String → Act
  | setupListeners
  | navigate : String → Act
  | logInfo
  | logError
deriving DecidableEq

/-- The catch-block of `joinExistingPreparationRoom` (lines 332-339): an
error whose `code` is a key of `CloseCodesMessages` produces a user-facing
alert; every other error is only logged. -/
def closeCodeErrorHandling (msgs : CloseCode → Option String) (e : ErrObj) :
    List Act :=
  match e.code with
  | some c =>
    match msgs c with
    | some m => [Act.dispatchSetErrorAlertMessage m]
    | none => [Act.logError]
  | none => [Act.logError]

/-- The error thrown at line 313 when the joined room is not a
preparation room.  It is a plain `Error`, so it carries no close code. -/
def unexpectedRoomKindError (name : String) : ErrObj :=
  ⟨none, "Expected to join a preparation room but joined " ++ name ++ " instead"⟩

/-- Environment for `joinExistingPreparationRoom`: the identity token
returned by `firebase.auth().currentUser?.getIdToken()` (absent when there
is no authenticated user) and the result of `client.joinById`. -/
structure PrepEnv where
  idToken : Option String
  joinByIdResult : Except ErrObj RoomHandle

/-- Result of the preparation-room transition: the ordered trace of
effects, and the error that was raised and subsequently caught by the
function's own catch-block, if any. -/
structure PrepResult where
  trace : List Act
  caught : Option ErrObj
deriving DecidableEq

/-- The first element of the `Promise.allSettled` array at line 326:
`lobby?.connection.isOpen && lobby.leave(false)`. -/
def lobbyLeaveActions : Option RoomHandle → List Act
  | some l => if l.isOpen then [Act.leaveRoom l.roomId] else []
  | none => []

/-- Embedding of `joinExistingPreparationRoom` (lines 297-340).  `lobby`
is the handle argument passed by the caller. -/
def joinExistingPreparationRoom (msgs : CloseCode → Option String)
    (env : PrepEnv) (roomId : String) (lobby : Option RoomHandle) :
    PrepResult :=
  match env.idToken with
  | none => ⟨[Act.getIdToken], none⟩
  | some token =>
    match env.joinByIdResult with
    | .error e =>
      ⟨[Act.getIdToken, Act.dispatchResetPreparation,
        Act.joinById roomId token] ++ closeCodeErrorHandling msgs e,
       some e⟩
    | .ok room =>
      if room.name = "preparation" then
        ⟨[Act.getIdToken, Act.dispatchResetPreparation,
          Act.joinById roomId token, Act.validateKind room.name,
          Act.storeSet LocalStoreKeys.RECONNECTION_PREPARATION
            room.reconnectionToken room.roomId 30]
          ++ lobbyLeaveActions lobby
          ++ (if room.isOpen then [Act.leaveRoom room.roomId] else [])
          ++ [Act.dispatchResetLobby, Act.navigate "/preparation"],
         none⟩
      else
        ⟨[Act.getIdToken, Act.dispatchResetPreparation,
          Act.joinById roomId token, Act.validateKind room.name]
          ++ (if room.isOpen then [Act.leaveRoom room.roomId] else [])
          ++ closeCodeErrorHandling msgs (unexpectedRoomKindError room.name),
         some (unexpectedRoomKindError room.name)⟩

/-- Environment for `joinLobbyRoom`: the redux-store lobby handle read at
entry (line 56), the result of `authenticateUser()`, the stored lobby
credential (line 66), the result of `client.reconnect`, the identity token
returned by `user.getIdToken()`, and the result of `client.join("lobby")`. -/
structure LobbyEnv where
  lobby : Option RoomHandle
  authResult : Except ErrObj Unit
  storedCredential : Option Credential
  reconnectResult : Except ErrObj RoomHandle
  idToken : String
  joinResult : Except ErrObj RoomHandle

/-- How the promise returned by `joinLobbyRoom` settles.  `hung` is the
case where neither `resolve` nor `reject` is ever called (the rejection of
`authenticateUser()` is not routed into the promise executor). -/
inductive Outcome where
  | resolved : RoomHandle → Outcome
  | rejected : ErrObj → Outcome
  | hung
deriving DecidableEq

/-- Result of `joinLobbyRoom`: outcome, effect trace, and — when the
message handlers were registered during this call — the `lobby` value
captured by the `Transfer.REQUEST_ROOM` handler closure (line 234), which
is the store value read at line 56. -/
structure LobbyResult where
  outcome : Outcome
  trace : List Act
  requestRoomCapturedLobby : Option (Option RoomHandle)
deriving DecidableEq

/-- Lines 85-278: success epilogue — mark CONNECTED, persist the lobby
credential for 5 minutes, attach all listeners/handlers, publish the
handle via `dispatch(joinLobby(room))`, then resolve. -/
def finishJoin (env : LobbyEnv) (room : RoomHandle) (t : List Act) :
    LobbyResult :=
  ⟨Outcome.resolved room,
   t ++ [Act.dispatchSetConnectionStatus,
         Act.storeSet LocalStoreKeys.RECONNECTION_LOBBY
           room.reconnectionToken room.roomId (60 * 5),
         Act.setupListeners,
         Act.dispatchJoinLobby room.roomId],
   some env.lobby⟩

/-- Lines 279-292: `reject(error)` inside the executor followed by the
top-level `promise.catch` handler — log, alert when `err.message` is
truthy, navigate away from the lobby. -/
def rejectedJoin (e : ErrObj) (t : List Act) : LobbyResult :=
  ⟨Outcome.rejected e,
   t ++ [Act.logError]
     ++ (if e.message = "" then [] else [Act.dispatchSetErrorAlertMessage e.message])
     ++ [Act.navigate "/"],
   none⟩

/-- Lines 78-82: fresh join path — obtain `user.getIdToken()` and
`client.join("lobby", { idToken })`. -/
def freshJoin (env : LobbyEnv) (t : List Act) : LobbyResult :=
  match env.joinResult with
  | .error e =>
    rejectedJoin e (t ++ [Act.getIdToken, Act.clientJoin "lobby" env.idToken])
  | .ok room =>
    finishJoin env room (t ++ [Act.getIdToken, Act.clientJoin "lobby" env.idToken])

/-- Lines 62-282: the body guarded by `authenticateUser().then(...)`.
When `authenticateUser()` rejects, the `.then` callback never runs and
the executor's `resolve`/`reject` are never called, so the promise hangs. -/
def joinLobbyRoomSlow (env : LobbyEnv) : LobbyResult :=
  match env.authResult with
  | .error _ => ⟨Outcome.hung, [Act.authenticate], none⟩
  | .ok _ =>
    let t := [Act.authenticate, Act.storeGet LocalStoreKeys.RECONNECTION_LOBBY]
    match env.storedCredential with
    | none => freshJoin env t
    | some cred =>
      if cred.reconnectionToken = "" then freshJoin env t
      else
        match env.reconnectResult with
        | .ok room => finishJoin env room (t ++ [Act.reconnect cred.reconnectionToken])
        | .error _ =>
          freshJoin env
            (t ++ [Act.reconnect cred.reconnectionToken,
                   Act.storeDelete LocalStoreKeys.RECONNECTION_LOBBY])

/-- Embedding of `joinLobbyRoom` (lines 49-295).  The fast path at lines
57-60 resolves with the already-published handle when its connection is
open, performing no other effect. -/
def joinLobbyRoom (env : LobbyEnv) : LobbyResult :=
  match env.lobby with
  | some l =>
    if l.isOpen then ⟨Outcome.resolved l, [], none⟩ else joinLobbyRoomSlow env
  | none => joinLobbyRoomSlow env

/-- The four close codes of lines 100-103 that imply the identity is no
longer valid. -/
def identityInvalidCode : CloseCode → Bool
  | CloseCode.USER_INACTIVE => true
  | CloseCode.USER_BANNED => true
  | CloseCode.USER_DELETED => true
  | CloseCode.USER_NOT_AUTHENTICATED => true
  | CloseCode.other _ => false

/-- Embedding of the `room.onLeave` handler (lines 96-111): log, and when
the user is on the lobby view and the code invalidates the identity, show
the translated message when one exists and navigate to the entry page. -/
def lobbyOnLeave (msgs : CloseCode → Option String) (pathname : String)
    (code : CloseCode) : List Act :=
  Act.logInfo ::
    (if pathname = "/lobby" ∧ identityInvalidCode code = true then
      (match msgs code with
       | some m => [Act.dispatchSetErrorAlertMessage m]
       | none => []) ++ [Act.navigate "/"]
     else [])

/-- Steps taken by the tournament-tree projector callbacks: sink emissions
and listener attachments, in execution order. -/
inductive ProjAct where
  | emitAddTournament : String → ProjAct
  | emitUpdateTournament
  | emitAddTournamentBracket : String → String → ProjAct
  | attachTournamentField : String → String → ProjAct
  | attachPlayersOnAdd : String → ProjAct
  | attachPlayersOnRemove : String → ProjAct
  | attachBracketsOnAdd : String → ProjAct
  | attachBracketsOnRemove : String → ProjAct
  | attachPlayerField : String → String → String → ProjAct
  | attachBracketField : String → String → String → ProjAct
  | attachBracketPlayersIdOnChange : String → String → ProjAct
deriving DecidableEq

/-- Embedding of the `$state.tournaments.onAdd` callback (lines 124-216)
for a tournament with id `tid`: dispatch `addTournament`, attach the
`id`/`name`/`startDate` field listeners, then the players collection
listeners, then the brackets collection listeners. -/
def tournamentsOnAdd (tid : String) : List ProjAct :=
  [ProjAct.emitAddTournament tid,
   ProjAct.attachTournamentField tid "id",
   ProjAct.attachTournamentField tid "name",
   ProjAct.attachTournamentField tid "startDate",
   ProjAct.attachPlayersOnAdd tid,
   ProjAct.attachPlayersOnRemove tid,
   ProjAct.attachBracketsOnAdd tid,
   ProjAct.attachBracketsOnRemove tid]

/-- Embedding of the `$tournament.players.onAdd` callback (lines 145-163):
dispatch `updateTournament()` (the sink update emitted for the added
player), then attach the `eliminated` field listener. -/
def playersOnAdd (tid userId : String) : List ProjAct :=
  [ProjAct.emitUpdateTournament,
   ProjAct.attachPlayerField tid userId "eliminated"]

/-- Embedding of the `$tournament.brackets.onAdd` callback (lines
169-206): dispatch `addTournamentBracket`, then attach the
`name`/`finished` field listeners and the `playersId` onChange listener. -/
def bracketsOnAdd (tid bracketId : String) : List ProjAct :=
  [ProjAct.emitAddTournamentBracket tid bracketId,
   ProjAct.attachBracketField tid bracketId "name",
   ProjAct.attachBracketField tid bracketId "finished",
   ProjAct.attachBracketPlayersIdOnChange tid bracketId]

/-- `a` occurs strictly before `b` in the list `l`. -/
def precedes {α : Type} (l : List α) (a b : α) : Prop :=
  ∃ i j, i < j ∧ l.get? i = some a ∧ l.get? j = some b

/-- Counts the fresh network join attempts (`client.join`) in a trace. -/
def joinAttempts (t : List Act) : Nat :=
  t.countP (fun a => match a with | Act.clientJoin _ _ => true | _ => false)

/-- Counts the reconnection attempts (`client.reconnect`) in a trace. -/
def reconnectAttempts (t : List Act) : Nat :=
  t.countP (fun a => match a with | Act.reconnect _ => true | _ => false)

/-- A sample `CloseCodesMessages` map used by concrete witnesses. -/
def msgsSample : CloseCode → Option String
  | CloseCode.USER_BANNED => some "USER_BANNED"
  | _ => none

/-- A concrete open preparation room. -/
def prepRoomC : RoomHandle := ⟨"preparation", "prep42", "ptok", true⟩

/-- A concrete open lobby room. -/
def lobbyRoomC : RoomHandle := ⟨"lobby", "lobby1", "ltok", true⟩

/-- A concrete open game room (the wrong kind for the transition). -/
def gameRoomC : RoomHandle := ⟨"game", "game7", "gtok", true⟩

/-- A concrete lobby room established by a fresh join. -/
def newLobbyRoomC : RoomHandle := ⟨"lobby", "lobbyNew", "rtok", true⟩

/-- A concrete transition environment that joins `prepRoomC`. -/
def prepEnvC : PrepEnv := ⟨some "idtok", Except.ok prepRoomC⟩

/-- A concrete transition environment that joins `gameRoomC`. -/
def prepEnvGameC : PrepEnv := ⟨some "idtok", Except.ok gameRoomC⟩

/-- A concrete authentication error. -/
def authErr : ErrObj := ⟨none, "AuthError"⟩

/-- A concrete stored lobby credential. -/
def credC : Credential := ⟨"abc", "lobby1"⟩

/-- Environment where no lobby is published and authentication fails. -/
def lobbyEnvAuthFail : LobbyEnv :=
  ⟨none, Except.error authErr, none, Except.error authErr, "idtok",
   Except.error authErr⟩

/-- Environment performing a successful fresh join (no stored credential). -/
def lobbyEnvFresh : LobbyEnv :=
  ⟨none, Except.ok (), none, Except.error authErr, "idtok",
   Except.ok newLobbyRoomC⟩

/-- Environment with an already-open fully-initialized lobby handle. -/
def lobbyEnvOpen : LobbyEnv :=
  ⟨some lobbyRoomC, Except.ok (), none, Except.error authErr, "idtok",
   Except.error authErr⟩

/-- Environment where the stored credential's reconnection fails and the
subsequent fresh join succeeds. -/
def lobbyEnvReconFail : LobbyEnv :=
  ⟨none, Except.ok (), some credC, Except.error ⟨none, "token consumed"⟩,
   "idtok", Except.ok newLobbyRoomC⟩

/-- A stale lobby handle whose connection has already closed. -/
def staleLobbyRoomC : RoomHandle := ⟨"lobby", "lobbyOld", "stok", false⟩

/-- Environment where the store still holds the stale closed handle
`staleLobbyRoomC` and the fresh join succeeds. -/
def lobbyEnvStale : LobbyEnv :=
  ⟨some staleLobbyRoomC, Except.ok (), none, Except.error authErr, "idtok",
   Except.ok newLobbyRoomC⟩

/-- C5: while an open, fully-initialized lobby handle exists, `connect()`
resolves with that very handle and performs no effect at all — no
reconnect, no join, no credential-store access — so repeated calls are
idempotent. -/
theorem C5_connect_idempotent (env : LobbyEnv) (l : RoomHandle)
    (h1 : env.lobby = some l) (h2 : l.isOpen = true) :
    joinLobbyRoom env = ⟨Outcome.resolved l, [], none⟩ := by
  simp [joinLobbyRoom, h1, h2]

/-- Witness for C5 at the concrete environment `lobbyEnvOpen`. -/
theorem C5_connect_idempotent_witness :
    lobbyEnvOpen.lobby = some lobbyRoomC ∧ lobbyRoomC.isOpen = true ∧
    joinLobbyRoom lobbyEnvOpen = ⟨Outcome.resolved lobbyRoomC, [], none⟩ :=
  ⟨rfl, rfl, C5_connect_idempotent lobbyEnvOpen lobbyRoomC rfl rfl⟩

/-- C4, counterexample: when no lobby handle exists and `authenticateUser()`
rejects, the promise neither resolves nor rejects (the rejection is not
routed into the executor), so nothing is surfaced: no log, no user-visible
message, no navigation — contradicting the claim that the failure reaches
the top-level handler. -/
theorem C4_counterexample :
    (joinLobbyRoom lobbyEnvAuthFail).outcome = Outcome.hung ∧
    (joinLobbyRoom lobbyEnvAuthFail).trace = [Act.authenticate] := by
  exact ⟨rfl, rfl⟩

/-- C4 (amended): when no open lobby handle exists and the auth
collaborator fails, `connect()` never settles: the auth failure is not
surfaced to the top-level handler, and no log, message or navigation
occurs — the only effect is the authentication attempt itself. -/
theorem C4_auth_failure_hangs (env : LobbyEnv) (e : ErrObj)
    (h1 : ∀ l, env.lobby = some l → l.isOpen = false)
    (h2 : env.authResult = Except.error e) :
    joinLobbyRoom env = ⟨Outcome.hung, [Act.authenticate], none⟩ := by
  cases hl : env.lobby with
  | none => simp [joinLobbyRoom, hl, joinLobbyRoomSlow, h2]
  | some l =>
    have hopen := h1 l hl
    simp [joinLobbyRoom, hl, hopen, joinLobbyRoomSlow, h2]

/-- Witness for the amended C4 at the concrete environment
`lobbyEnvAuthFail`. -/
theorem C4_auth_failure_hangs_witness :
    lobbyEnvAuthFail.authResult = Except.error authErr ∧
    joinLobbyRoom lobbyEnvAuthFail = ⟨Outcome.hung, [Act.authenticate], none⟩ :=
  ⟨rfl,
   C4_auth_failure_hangs lobbyEnvAuthFail authErr
     (by intro l h; simp [lobbyEnvAuthFail] at h) rfl⟩

/-- C1, counterexample: in a successful transition with both connections
open, the leaving step leaves the newly joined preparation room
("prep42") as well as the lobby ("lobby1") — contradicting the claim that
only the lobby connection is left and the preparation room remains open. -/
theorem C1_counterexample :
    Act.leaveRoom "prep42" ∈
      (joinExistingPreparationRoom msgsSample prepEnvC "prep42" (some lobbyRoomC)).trace ∧
    Act.leaveRoom "lobby1" ∈
      (joinExistingPreparationRoom msgsSample prepEnvC "prep42" (some lobbyRoomC)).trace ∧
    ("prep42" : String) ≠ "lobby1" := by
  decide

/-- C1 (amended): after kind validation passes, the leaving step attempts
to leave BOTH the lobby connection (if open) and the newly joined
preparation room connection (if open); the preparation room is not kept
open — resumption relies on the persisted 30-second credential. -/
theorem C1_leaves_both (msgs : CloseCode → Option String) (env : PrepEnv)
    (roomId tok : String) (room l : RoomHandle)
    (h1 : env.idToken = some tok) (h2 : env.joinByIdResult = Except.ok room)
    (h3 : room.name = "preparation") (h4 : room.isOpen = true)
    (h5 : l.isOpen = true) :
    Act.leaveRoom l.roomId ∈
      (joinExistingPreparationRoom msgs env roomId (some l)).trace ∧
    Act.leaveRoom room.roomId ∈
      (joinExistingPreparationRoom msgs env roomId (some l)).trace := by
  simp [joinExistingPreparationRoom, h1, h2, h3, h4, h5, lobbyLeaveActions]

/-- Witness for the amended C1 at the concrete transition environment
`prepEnvC` with lobby `lobbyRoomC`. -/
theorem C1_leaves_both_witness :
    prepEnvC.idToken = some "idtok" ∧
    prepEnvC.joinByIdResult = Except.ok prepRoomC ∧
    (Act.leaveRoom lobbyRoomC.roomId ∈
       (joinExistingPreparationRoom msgsSample prepEnvC "prep42" (some lobbyRoomC)).trace ∧
     Act.leaveRoom prepRoomC.roomId ∈
       (joinExistingPreparationRoom msgsSample prepEnvC "prep42" (some lobbyRoomC)).trace) :=
  ⟨rfl, rfl,
   C1_leaves_both msgsSample prepEnvC "prep42" "idtok" prepRoomC lobbyRoomC
     rfl rfl rfl rfl rfl⟩

/-- C6, counterexample: two `connect()` invocations that both start while
no lobby handle is published each perform their own `client.join`, so two
join attempts are made in total, not one. -/
theorem C6_counterexample :
    joinAttempts (joinLobbyRoom lobbyEnvFresh).trace +
        joinAttempts (joinLobbyRoom lobbyEnvFresh).trace = 2 ∧
    joinAttempts (joinLobbyRoom lobbyEnvFresh).trace +
        joinAttempts (joinLobbyRoom lobbyEnvFresh).trace ≠ 1 := by
  decide

/-- C6 (amended): each `connect()` invocation that starts before the first
one publishes its handle performs exactly one join attempt of its own (two
in total for two overlapping invocations); the handle publication
(`dispatch(joinLobby(room))`) strictly follows the join attempt in the
trace, which is why an overlapping second call cannot see the first call's
handle. -/
theorem C6_two_pending_connects_join_twice (env : LobbyEnv) (room : RoomHandle)
    (h1 : env.lobby = none) (h2 : env.authResult = Except.ok ())
    (h3 : env.storedCredential = none) (h4 : env.joinResult = Except.ok room) :
    joinAttempts (joinLobbyRoom env).trace = 1 ∧
    precedes (joinLobbyRoom env).trace (Act.clientJoin "lobby" env.idToken)
      (Act.dispatchJoinLobby room.roomId) ∧
    joinAttempts (joinLobbyRoom env).trace +
        joinAttempts (joinLobbyRoom env).trace = 2 := by
  have ht : (joinLobbyRoom env).trace =
      [Act.authenticate, Act.storeGet LocalStoreKeys.RECONNECTION_LOBBY,
       Act.getIdToken, Act.clientJoin "lobby" env.idToken,
       Act.dispatchSetConnectionStatus,
       Act.storeSet LocalStoreKeys.RECONNECTION_LOBBY room.reconnectionToken
         room.roomId (60 * 5),
       Act.setupListeners, Act.dispatchJoinLobby room.roomId] := by
    simp [joinLobbyRoom, h1, joinLobbyRoomSlow, h2, h3, freshJoin, h4, finishJoin]
  refine ⟨?_, ?_, ?_⟩
  · rw [ht]; rfl
  · rw [ht]; exact ⟨3, 7, by omega, rfl, rfl⟩
  · rw [ht]; rfl

/-- Witness for the amended C6 at the concrete environment
`lobbyEnvFresh`. -/
theorem C6_two_pending_connects_join_twice_witness :
    lobbyEnvFresh.lobby = none ∧
    joinAttempts (joinLobbyRoom lobbyEnvFresh).trace +
        joinAttempts (joinLobbyRoom lobbyEnvFresh).trace = 2 :=
  ⟨rfl,
   (C6_two_pending_connects_join_twice lobbyEnvFresh newLobbyRoomC
     rfl rfl rfl rfl).2.2⟩

/-- No branch of the transition catch-block ever leaves a room. -/
theorem leaveRoom_notin_closeCodeErrorHandling (msgs : CloseCode → Option String)
    (e : ErrObj) (rid : String) :
    Act.leaveRoom rid ∉ closeCodeErrorHandling msgs e := by
  obtain ⟨code, msg⟩ := e
  cases code with
  | none => simp [closeCodeErrorHandling]
  | some c => cases hm : msgs c <;> simp [closeCodeErrorHandling, hm]

/-- C3: when a stored lobby credential is present and reconnection with
its token fails, `connect()` deletes the stored credential, attempts the
reconnect exactly once (no retry), proceeds to a fresh join with a newly
obtained identity token, and the reconnection error is never surfaced:
the outcome is entirely determined by the fresh join (resolved on
success, with no error log or alert; rejected with the fresh join's own
error otherwise). -/
theorem C3_reconnect_failure_recovery (env : LobbyEnv) (cred : Credential)
    (e : ErrObj) (h1 : env.lobby = none) (h2 : env.authResult = Except.ok ())
    (h3 : env.storedCredential = some cred)
    (h4 : cred.reconnectionToken ≠ "")
    (h5 : env.reconnectResult = Except.error e) :
    Act.storeDelete LocalStoreKeys.RECONNECTION_LOBBY ∈ (joinLobbyRoom env).trace ∧
    reconnectAttempts (joinLobbyRoom env).trace = 1 ∧
    Act.clientJoin "lobby" env.idToken ∈ (joinLobbyRoom env).trace ∧
    (∀ room, env.joinResult = Except.ok room →
      (joinLobbyRoom env).outcome = Outcome.resolved room ∧
      Act.logError ∉ (joinLobbyRoom env).trace ∧
      (∀ m, Act.dispatchSetErrorAlertMessage m ∉ (joinLobbyRoom env).trace)) ∧
    (∀ e2, env.joinResult = Except.error e2 →
      (joinLobbyRoom env).outcome = Outcome.rejected e2) := by
  cases hj : env.joinResult with
  | ok room =>
    have ht : (joinLobbyRoom env).trace =
        [Act.authenticate, Act.storeGet LocalStoreKeys.RECONNECTION_LOBBY,
         Act.reconnect cred.reconnectionToken,
         Act.storeDelete LocalStoreKeys.RECONNECTION_LOBBY,
         Act.getIdToken, Act.clientJoin "lobby" env.idToken,
         Act.dispatchSetConnectionStatus,
         Act.storeSet LocalStoreKeys.RECONNECTION_LOBBY room.reconnectionToken
           room.roomId (60 * 5),
         Act.setupListeners, Act.dispatchJoinLobby room.roomId] := by
      simp [joinLobbyRoom, h1, joinLobbyRoomSlow, h2, h3, h4, h5, freshJoin,
        hj, finishJoin]
    have ho : (joinLobbyRoom env).outcome = Outcome.resolved room := by
      simp [joinLobbyRoom, h1, joinLobbyRoomSlow, h2, h3, h4, h5, freshJoin,
        hj, finishJoin]
    refine ⟨by rw [ht]; simp, by rw [ht]; rfl, by rw [ht]; simp, ?_, ?_⟩
    · intro room2 hr2
      injection hr2 with hr2
      subst hr2
      exact ⟨ho, by rw [ht]; simp, by intro m; rw [ht]; simp⟩
    · intro e2 he2
      simp at he2
  | error e2 =>
    have ht : (joinLobbyRoom env).trace =
        [Act.authenticate, Act.storeGet LocalStoreKeys.RECONNECTION_LOBBY,
         Act.reconnect cred.reconnectionToken,
         Act.storeDelete LocalStoreKeys.RECONNECTION_LOBBY,
         Act.getIdToken, Act.clientJoin "lobby" env.idToken, Act.logError]
        ++ (if e2.message = "" then []
            else [Act.dispatchSetErrorAlertMessage e2.message])
        ++ [Act.navigate "/"] := by
      simp [joinLobbyRoom, h1, joinLobbyRoomSlow, h2, h3, h4, h5, freshJoin,
        hj, rejectedJoin]
    have ho : (joinLobbyRoom env).outcome = Outcome.rejected e2 := by
      simp [joinLobbyRoom, h1, joinLobbyRoomSlow, h2, h3, h4, h5, freshJoin,
        hj, rejectedJoin]
    refine ⟨by rw [ht]; simp, ?_, by rw [ht]; simp, ?_, ?_⟩
    · rw [ht]
      by_cases hm : e2.message = "" <;>
        simp [hm, reconnectAttempts, List.countP_append, List.countP_cons]
    · intro room2 hr2
      simp at hr2
    · intro e3 he3
      injection he3 with he3
      subst he3
      exact ho

/-- Witness for C3 at the concrete environment `lobbyEnvReconFail`. -/
theorem C3_reconnect_failure_recovery_witness :
    lobbyEnvReconFail.storedCredential = some credC ∧
    Act.storeDelete LocalStoreKeys.RECONNECTION_LOBBY ∈
      (joinLobbyRoom lobbyEnvReconFail).trace ∧
    reconnectAttempts (joinLobbyRoom lobbyEnvReconFail).trace = 1 :=
  ⟨rfl,
   (C3_reconnect_failure_recovery lobbyEnvReconFail credC ⟨none, "token consumed"⟩
      rfl rfl rfl (by decide) rfl).1,
   (C3_reconnect_failure_recovery lobbyEnvReconFail credC ⟨none, "token consumed"⟩
      rfl rfl rfl (by decide) rfl).2.1⟩

/-- C7: when the joined room's declared kind is not "preparation", the
transition leaves the just-joined room exactly when its connection is
still open, fails with the unexpected-room-kind error (caught by the
transition's own catch-block), persists no credential at all, and
performs no navigation. -/
theorem C7_unexpected_room_kind (msgs : CloseCode → Option String)
    (env : PrepEnv) (roomId tok : String) (room : RoomHandle)
    (lobby : Option RoomHandle)
    (h1 : env.idToken = some tok) (h2 : env.joinByIdResult = Except.ok room)
    (h3 : room.name ≠ "preparation") :
    (joinExistingPreparationRoom msgs env roomId lobby).caught =
      some (unexpectedRoomKindError room.name) ∧
    (room.isOpen = true →
      Act.leaveRoom room.roomId ∈
        (joinExistingPreparationRoom msgs env roomId lobby).trace) ∧
    (room.isOpen = false →
      ∀ rid, Act.leaveRoom rid ∉
        (joinExistingPreparationRoom msgs env roomId lobby).trace) ∧
    (∀ k t2 r2 n, Act.storeSet k t2 r2 n ∉
      (joinExistingPreparationRoom msgs env roomId lobby).trace) ∧
    (∀ p, Act.navigate p ∉
      (joinExistingPreparationRoom msgs env roomId lobby).trace) := by
  have hcatch : closeCodeErrorHandling msgs (unexpectedRoomKindError room.name) =
      [Act.logError] := rfl
  have ht : (joinExistingPreparationRoom msgs env roomId lobby).trace =
      [Act.getIdToken, Act.dispatchResetPreparation, Act.joinById roomId tok,
       Act.validateKind room.name]
      ++ (if room.isOpen then [Act.leaveRoom room.roomId] else [])
      ++ [Act.logError] := by
    simp [joinExistingPreparationRoom, h1, h2, h3, hcatch]
  have hc : (joinExistingPreparationRoom msgs env roomId lobby).caught =
      some (unexpectedRoomKindError room.name) := by
    simp [joinExistingPreparationRoom, h1, h2, h3]
  cases hio : room.isOpen with
  | true =>
    refine ⟨hc, fun _ => ?_, fun hfalse => by simp [hio] at hfalse, ?_, ?_⟩
    · rw [ht]; simp [hio]
    · intro k t2 r2 n; rw [ht]; simp [hio]
    · intro p; rw [ht]; simp [hio]
  | false =>
    refine ⟨hc, fun htrue => by simp [hio] at htrue, fun _ => ?_, ?_, ?_⟩
    · intro rid; rw [ht]; simp [hio]
    · intro k t2 r2 n; rw [ht]; simp [hio]
    · intro p; rw [ht]; simp [hio]

/-- Witness for C7 at the concrete environment `prepEnvGameC`, which
joins the open game room `gameRoomC`. -/
theorem C7_unexpected_room_kind_witness :
    prepEnvGameC.joinByIdResult = Except.ok gameRoomC ∧
    gameRoomC.name ≠ "preparation" ∧
    (joinExistingPreparationRoom msgsSample prepEnvGameC "game7"
        (some lobbyRoomC)).caught = some (unexpectedRoomKindError gameRoomC.name) :=
  ⟨rfl, by decide,
   (C7_unexpected_room_kind msgsSample prepEnvGameC "game7" "idtok" gameRoomC
      (some lobbyRoomC) rfl rfl (by decide)).1⟩

/-- C2: in a transition where an identity token exists, the joined room
reports kind "preparation" and the lobby connection is open, the steps
named by the claim occur in exactly this relative order: join the target
room by id presenting the token, validate its kind, persist the
`{token, roomId}` credential under the preparation key with TTL 30
seconds, attempt the lobby leave, dispatch the lobby reset to the sink,
navigate to the preparation path. -/
theorem C2_transition_order (msgs : CloseCode → Option String) (env : PrepEnv)
    (roomId tok : String) (room l : RoomHandle)
    (h1 : env.idToken = some tok) (h2 : env.joinByIdResult = Except.ok room)
    (h3 : room.name = "preparation") (h4 : l.isOpen = true) :
    List.Sublist
      [Act.joinById roomId tok, Act.validateKind room.name,
       Act.storeSet LocalStoreKeys.RECONNECTION_PREPARATION
         room.reconnectionToken room.roomId 30,
       Act.leaveRoom l.roomId, Act.dispatchResetLobby,
       Act.navigate "/preparation"]
      (joinExistingPreparationRoom msgs env roomId (some l)).trace := by
  have ht : (joinExistingPreparationRoom msgs env roomId (some l)).trace =
      [Act.getIdToken, Act.dispatchResetPreparation, Act.joinById roomId tok,
       Act.validateKind room.name,
       Act.storeSet LocalStoreKeys.RECONNECTION_PREPARATION
         room.reconnectionToken room.roomId 30,
       Act.leaveRoom l.roomId]
      ++ (if room.isOpen then [Act.leaveRoom room.roomId] else [])
      ++ [Act.dispatchResetLobby, Act.navigate "/preparation"] := by
    simp [joinExistingPreparationRoom, h1, h2, h3, h4, lobbyLeaveActions]
  rw [ht]
  cases room.isOpen with
  | true =>
    simp only [if_pos, List.cons_append, List.nil_append, if_true]
    exact .cons _ (.cons _ (.cons₂ _ (.cons₂ _ (.cons₂ _ (.cons₂ _
      (.cons _ (.cons₂ _ (.cons₂ _ List.Sublist.slnil))))))))
  | false =>
    simp only [if_neg, List.cons_append, List.nil_append, Bool.false_eq_true,
      if_false]
    exact .cons _ (.cons _ (.cons₂ _ (.cons₂ _ (.cons₂ _ (.cons₂ _
      (.cons₂ _ (.cons₂ _ List.Sublist.slnil)))))))

/-- Witness for C2 at the concrete transition environment `prepEnvC` with
the open lobby `lobbyRoomC`. -/
theorem C2_transition_order_witness :
    prepEnvC.idToken = some "idtok" ∧
    List.Sublist
      [Act.joinById "prep42" "idtok", Act.validateKind prepRoomC.name,
       Act.storeSet LocalStoreKeys.RECONNECTION_PREPARATION
         prepRoomC.reconnectionToken prepRoomC.roomId 30,
       Act.leaveRoom lobbyRoomC.roomId, Act.dispatchResetLobby,
       Act.navigate "/preparation"]
      (joinExistingPreparationRoom msgsSample prepEnvC "prep42"
        (some lobbyRoomC)).trace :=
  ⟨rfl,
   C2_transition_order msgsSample prepEnvC "prep42" "idtok" prepRoomC lobbyRoomC
     rfl rfl rfl rfl⟩

/-- C8: the lobby `onLeave` handler navigates to the entry page exactly
when the close code is one of the four identity-invalidating codes AND
the user is on the lobby view; a user-facing message is additionally
emitted exactly when a translation exists for the code; and no path other
than the entry page is ever navigated to. -/
theorem C8_disconnect_classification (msgs : CloseCode → Option String)
    (pathname : String) (code : CloseCode) :
    (Act.navigate "/" ∈ lobbyOnLeave msgs pathname code ↔
      (pathname = "/lobby" ∧ identityInvalidCode code = true)) ∧
    ((∃ m, Act.dispatchSetErrorAlertMessage m ∈ lobbyOnLeave msgs pathname code) ↔
      (pathname = "/lobby" ∧ identityInvalidCode code = true ∧ msgs code ≠ none)) ∧
    (∀ p, Act.navigate p ∈ lobbyOnLeave msgs pathname code → p = "/") := by
  by_cases h : pathname = "/lobby" ∧ identityInvalidCode code = true
  · cases hm : msgs code with
    | some m =>
      refine ⟨?_, ?_, ?_⟩ <;> simp [lobbyOnLeave, h, hm]
    | none =>
      refine ⟨?_, ?_, ?_⟩ <;> simp [lobbyOnLeave, h, hm]
  · have ht : lobbyOnLeave msgs pathname code = [Act.logInfo] := by
      simp [lobbyOnLeave, h]
    rw [ht]
    refine ⟨⟨fun hmem => absurd hmem (by simp), fun hab => absurd hab h⟩,
            ⟨fun hex => ?_, fun hab => absurd ⟨hab.1, hab.2.1⟩ h⟩,
            fun p hp => by simp at hp⟩
    obtain ⟨m, hmem⟩ := hex
    simp at hmem

/-- C9: the projector's traversal order for a newly added tournament —
the tournament-added sink update is emitted first, then the `id`, `name`,
`startDate` field listeners are attached in that order, then the players
collection listeners, then the brackets collection listeners; and each
added player (resp. bracket) first emits its sink update
(`updateTournament` resp. `addTournamentBracket`) and only then attaches
its field listeners. -/
theorem C9_projector_traversal_order (tid uid bid : String) :
    (tournamentsOnAdd tid).get? 0 = some (ProjAct.emitAddTournament tid) ∧
    precedes (tournamentsOnAdd tid) (ProjAct.emitAddTournament tid)
      (ProjAct.attachTournamentField tid "id") ∧
    precedes (tournamentsOnAdd tid) (ProjAct.attachTournamentField tid "id")
      (ProjAct.attachTournamentField tid "name") ∧
    precedes (tournamentsOnAdd tid) (ProjAct.attachTournamentField tid "name")
      (ProjAct.attachTournamentField tid "startDate") ∧
    precedes (tournamentsOnAdd tid) (ProjAct.attachTournamentField tid "startDate")
      (ProjAct.attachPlayersOnAdd tid) ∧
    precedes (tournamentsOnAdd tid) (ProjAct.attachPlayersOnRemove tid)
      (ProjAct.attachBracketsOnAdd tid) ∧
    (playersOnAdd tid uid).get? 0 = some ProjAct.emitUpdateTournament ∧
    precedes (playersOnAdd tid uid) ProjAct.emitUpdateTournament
      (ProjAct.attachPlayerField tid uid "eliminated") ∧
    (bracketsOnAdd tid bid).get? 0 =
      some (ProjAct.emitAddTournamentBracket tid bid) ∧
    precedes (bracketsOnAdd tid bid) (ProjAct.emitAddTournamentBracket tid bid)
      (ProjAct.attachBracketField tid bid "name") ∧
    precedes (bracketsOnAdd tid bid) (ProjAct.attachBracketField tid bid "finished")
      (ProjAct.attachBracketPlayersIdOnChange tid bid) :=
  ⟨rfl, ⟨0, 1, by omega, rfl, rfl⟩, ⟨1, 2, by omega, rfl, rfl⟩,
   ⟨2, 3, by omega, rfl, rfl⟩, ⟨3, 4, by omega, rfl, rfl⟩,
   ⟨5, 6, by omega, rfl, rfl⟩, rfl, ⟨0, 1, by omega, rfl, rfl⟩, rfl,
   ⟨0, 1, by omega, rfl, rfl⟩, ⟨2, 3, by omega, rfl, rfl⟩⟩

/-- C10: for every `connect()` that performs a fresh join — no OPEN lobby
handle exists at entry, i.e. the store value read at line 56 is absent or
is a stale handle whose connection is closed — the `lobby` value captured
for the REQUEST_ROOM transition handler is exactly that absent-or-stale
store value (never the newly established connection), and every room left
during a transition invoked with that captured value is the newly joined
preparation-target room: the freshly established lobby connection is
never the one left (a stale captured handle is closed, so its guarded
leave is a no-op). -/
theorem C10_stale_lobby_capture (env : LobbyEnv)
    (h : ∀ l, env.lobby = some l → l.isOpen = false) :
    (∀ c, (joinLobbyRoom env).requestRoomCapturedLobby = some c →
      c = env.lobby) ∧
    (∀ msgs prepEnv roomId rid,
      Act.leaveRoom rid ∈
        (joinExistingPreparationRoom msgs prepEnv roomId env.lobby).trace →
      ∃ r, prepEnv.joinByIdResult = Except.ok r ∧ rid = r.roomId) := by
  constructor
  · intro c hc
    have hs : joinLobbyRoom env = joinLobbyRoomSlow env := by
      cases hl : env.lobby with
      | none => simp [joinLobbyRoom, hl]
      | some l => simp [joinLobbyRoom, hl, h l hl]
    rw [hs] at hc
    cases ha : env.authResult with
    | error e => simp [joinLobbyRoomSlow, ha] at hc
    | ok u =>
      cases hsc : env.storedCredential with
      | none =>
        cases hjr : env.joinResult with
        | error e2 =>
          simp [joinLobbyRoomSlow, ha, hsc, freshJoin, hjr, rejectedJoin] at hc
        | ok room =>
          simp [joinLobbyRoomSlow, ha, hsc, freshJoin, hjr, finishJoin] at hc
          exact hc.symm
      | some cred =>
        by_cases htok : cred.reconnectionToken = ""
        · cases hjr : env.joinResult with
          | error e2 =>
            simp [joinLobbyRoomSlow, ha, hsc, htok, freshJoin, hjr,
              rejectedJoin] at hc
          | ok room =>
            simp [joinLobbyRoomSlow, ha, hsc, htok, freshJoin, hjr,
              finishJoin] at hc
            exact hc.symm
        · cases hr : env.reconnectResult with
          | ok room =>
            simp [joinLobbyRoomSlow, ha, hsc, htok, hr, finishJoin] at hc
            exact hc.symm
          | error e3 =>
            cases hjr : env.joinResult with
            | error e2 =>
              simp [joinLobbyRoomSlow, ha, hsc, htok, hr, freshJoin, hjr,
                rejectedJoin] at hc
            | ok room =>
              simp [joinLobbyRoomSlow, ha, hsc, htok, hr, freshJoin, hjr,
                finishJoin] at hc
              exact hc.symm
  · intro msgs prepEnv roomId rid hmem
    have hll : lobbyLeaveActions env.lobby = [] := by
      cases hl : env.lobby with
      | none => rfl
      | some l => simp [lobbyLeaveActions, h l hl]
    cases hid : prepEnv.idToken with
    | none => simp [joinExistingPreparationRoom, hid] at hmem
    | some tok =>
      cases hjr : prepEnv.joinByIdResult with
      | error e =>
        simp [joinExistingPreparationRoom, hid, hjr] at hmem
        exact absurd hmem (leaveRoom_notin_closeCodeErrorHandling msgs e rid)
      | ok room =>
        refine ⟨room, rfl, ?_⟩
        by_cases hname : room.name = "preparation"
        · cases hio : room.isOpen with
          | true =>
            simp [joinExistingPreparationRoom, hid, hjr, hname, hio,
              hll] at hmem
            exact hmem
          | false =>
            simp [joinExistingPreparationRoom, hid, hjr, hname, hio,
              hll] at hmem
        · cases hio : room.isOpen with
          | true =>
            simp [joinExistingPreparationRoom, hid, hjr, hname, hio] at hmem
            rcases hmem with hmem | hmem
            · exact hmem
            · exact absurd hmem (leaveRoom_notin_closeCodeErrorHandling msgs _ rid)
          | false =>
            simp [joinExistingPreparationRoom, hid, hjr, hname, hio] at hmem
            exact absurd hmem (leaveRoom_notin_closeCodeErrorHandling msgs _ rid)

/-- Witness for C10 at the concrete environment `lobbyEnvStale`, whose
store holds the stale CLOSED handle `staleLobbyRoomC` while the fresh
join establishes `newLobbyRoomC`. -/
theorem C10_stale_lobby_capture_witness :
    lobbyEnvStale.lobby = some staleLobbyRoomC ∧
    staleLobbyRoomC.isOpen = false ∧
    (∀ c, (joinLobbyRoom lobbyEnvStale).requestRoomCapturedLobby = some c →
      c = lobbyEnvStale.lobby) :=
  ⟨rfl, rfl,
   (C10_stale_lobby_capture lobbyEnvStale
     (by intro l hl; injection hl with hl; subst hl; rfl)).1⟩
